import Mathlib

/-!
Verification of the session-lifecycle and authentication state machine of the
polit backend.  The relational rows are modelled as Lean structures, the
database as lists of rows, and each route/service function as a pure state
transformer returning the committed database together with an `Except` result.
Timestamps are integers (seconds since an arbitrary epoch); the password KDF
and the random generators are passed in as parameters, since they are external
collaborators.
-/

namespace Polit

/-- Row of table `role` (models/user_model.py, class Role). -/
structure RoleRow where
  id : Nat
  name : String
deriving Repr, DecidableEq

/-- Row of table `user` (models/user_model.py, class User).  Only the columns
the verified operations read or write are carried. -/
structure UserRow where
  id : Nat
  username : String
  password_hash : String
  role_id : Nat
  status : Bool
  is_temp_password : Bool
  created_by : Nat
deriving Repr, DecidableEq

/-- Row of table `user_detail` (models/user_model.py, class UserDetail). -/
structure UserDetailRow where
  user_id : Nat
  email : String
  full_name : String
  status : Bool
deriving Repr, DecidableEq

/-- Row of table `session` (models/user_model.py, class Session).
`end_time = none` models the SQL NULL of an active session. -/
structure SessionRow where
  session_id : Nat
  user_id : Nat
  session_uuid : String
  start_time : Int
  end_time : Option Int
deriving Repr, DecidableEq

/-- Row of table `password_reset_token` (models/user_model.py,
class PasswordResetToken). -/
structure ResetTokenRow where
  id : Nat
  user_id : Nat
  token : String
  expiration : Int
deriving Repr, DecidableEq

/-- The committed database state: one list of rows per table. -/
structure DB where
  roles : List RoleRow
  users : List UserRow
  details : List UserDetailRow
  sessions : List SessionRow
  resetTokens : List ResetTokenRow
deriving Repr, DecidableEq

/-- Errors surfaced by the handlers: `http` models a raised HTTPException
with its status code and detail string, `valueError` models a raised
ValueError with its message. -/
inductive HErr where
  | http (statusCode : Nat) (detail : String)
  | valueError (msg : String)
deriving Repr, DecidableEq

instance {ε α : Type} [DecidableEq ε] [DecidableEq α] : DecidableEq (Except ε α) :=
  fun x y =>
  match x, y with
  | .ok a, .ok b => decidable_of_iff (a = b) (by simp)
  | .error a, .error b => decidable_of_iff (a = b) (by simp)
  | .ok _, .error _ => .isFalse (by simp)
  | .error _, .ok _ => .isFalse (by simp)

/-- The message of the duplicate-email ValueError raised across
service/user_service.py. -/
def dupEmailMsg : String := "A user with that email already exists."

/-- Python str.endswith: true iff the last characters of `s` spell `suffix`. -/
def endswith (s suffix : String) : Bool :=
  if suffix.length ≤ s.length then
    (s.data.drop (s.length - suffix.length)) == suffix.data
  else false

/-- `timedelta(days=5)` in seconds, the hard-coded session age bound of
`get_current_user` (service/user_service.py line 64). -/
def fiveDaysSeconds : Int := 5 * 24 * 60 * 60

/-- The denormalised user view returned by `get_current_user`
(schemas UserListItem). -/
structure UserListItem where
  id : Nat
  full_name : String
  email : String
  role : String
  status : Bool
  is_temp_password : Bool
deriving Repr, DecidableEq

/-- The join of `user`, `user_detail` and `role` on a given user id, as the
q_user query of `get_current_user` builds it (service/user_service.py
lines 70-96).  Inner joins: absence of the detail or role row yields no row. -/
def userJoin (db : DB) (uid : Nat) : Option UserListItem :=
  match db.users.find? (fun u => u.id == uid) with
  | none => none
  | some u =>
    match db.details.find? (fun d => d.user_id == uid) with
    | none => none
    | some d =>
      match db.roles.find? (fun r => r.id == u.role_id) with
      | none => none
      | some r =>
        some { id := u.id, full_name := d.full_name, email := d.email,
               role := r.name, status := u.status,
               is_temp_password := u.is_temp_password }

/-- `get_current_user` (service/user_service.py lines 43-96): resolves the
session cookie to a user view.  The returned `DB` is the committed state
after the call; an expired session is marked ended (end_time := now) and
committed before the 401 is raised. -/
def get_current_user (db : DB) (cookie : Option String) (now : Int) :
    DB × Except HErr UserListItem :=
  match cookie with
  | none => (db, .error (.http 401 "Not authenticated"))
  | some token =>
    match db.sessions.find? (fun s => s.session_uuid == token && s.end_time == none) with
    | none => (db, .error (.http 401 "Invalid or expired session"))
    | some sess =>
      if now - sess.start_time > fiveDaysSeconds then
        ({ db with sessions := db.sessions.map (fun s =>
            if s.session_id == sess.session_id then { s with end_time := some now } else s) },
         .error (.http 401 "Session expired"))
      else
        match userJoin db sess.user_id with
        | none => (db, .error (.http 404 "User not found"))
        | some item => (db, .ok item)

/-- `cleanup_expired_sessions` (utils/scheduler.py lines 15-32): one run of
the periodic sweep.  `timeoutMinutes` models SESSION_TIMEOUT_MINUTES (default
7200 = 5 days).  Every active session with start_time strictly before
now - timeout is mutated in place to end_time = start_time + timeout. -/
def cleanup_expired_sessions (db : DB) (now timeoutMinutes : Int) : DB :=
  let cutoff := now - timeoutMinutes * 60
  { db with sessions := db.sessions.map (fun s =>
      if s.start_time < cutoff && s.end_time == none then
        { s with end_time := some (s.start_time + timeoutMinutes * 60) }
      else s) }

/-- Login result dict of `login_user` (service/user_service.py lines 153-158). -/
structure LoginInfo where
  id : Nat
  username : String
  role : String
  is_temp_password : Bool
deriving Repr, DecidableEq

/-- `login_user` (service/user_service.py lines 114-158).  `verify` is the
pbkdf2 verifier, passed in as a collaborator.  Returns `none` for an unknown
username or a wrong password; raises 403 for an inactive account before the
password is ever checked. -/
def login_user (db : DB) (verify : String → String → Bool)
    (username password : String) : Except HErr (Option LoginInfo) :=
  match db.users.find? (fun u => u.username == username) with
  | none => .ok none
  | some u =>
    match db.roles.find? (fun r => r.id == u.role_id) with
    | none => .ok none
    | some role =>
      if !u.status then
        .error (.http 403 "Account is inactive. Contact administrator.")
      else if !(verify password u.password_hash) then
        .ok none
      else
        .ok (some { id := u.id, username := u.username, role := role.name,
                    is_temp_password := u.is_temp_password })

/-- Response of a successful login (routes/auth_routes.py lines 59-73). -/
structure LoginResponse where
  msg : String
  redirect_to_change_password : Bool
  userInfo : Option LoginInfo
deriving Repr, DecidableEq

/-- The `/login` route (routes/auth_routes.py lines 26-73, identical control
flow in routes/user_routes.py lines 100-130): authenticates and, on success,
creates a session row.  `newUuid`, `newSid` and `now` model the generated
session uuid, the assigned primary key and the insertion timestamp. -/
def login (db : DB) (verify : String → String → Bool)
    (username password : String) (newUuid : String) (newSid : Nat) (now : Int) :
    DB × Except HErr LoginResponse :=
  match login_user db verify username password with
  | .error e => (db, .error e)
  | .ok none => (db, .error (.http 401 "Invalid credentials"))
  | .ok (some info) =>
    let db1 := { db with sessions := db.sessions ++
                  [{ session_id := newSid, user_id := info.id,
                     session_uuid := newUuid, start_time := now, end_time := none }] }
    if info.is_temp_password then
      (db1, .ok { msg := "Login successful, please change your password.",
                  redirect_to_change_password := true, userInfo := none })
    else
      (db1, .ok { msg := "Login successful",
                  redirect_to_change_password := false, userInfo := some info })

/-- The AddUser request schema used by add-user and edit-user. -/
structure AddUser where
  email : String
  full_name : String
  role : String
  statusFlag : Bool
deriving Repr, DecidableEq

/-- `get_role_id` (service/user_service.py lines 285-303).  The quotes around
the role name in the ValueError message are elided. -/
def get_role_id (db : DB) (role_name : String) : Except HErr Nat :=
  match db.roles.find? (fun r => r.name == role_name) with
  | none => .error (.valueError ("Role " ++ role_name ++ " not found"))
  | some r => .ok r.id

/-- `create_user` (service/user_service.py lines 307-361).  `temp_password`
and `newUserId` model the generated password and the assigned primary key,
`hash` the pbkdf2 KDF.  Each commit either succeeds, extending the committed
state, or raises IntegrityError on a unique-constraint violation
(username unique on `user`, email unique on `user_detail`), which is rolled
back to the last committed state and translated to a ValueError. -/
def create_user (db : DB) (data : AddUser) (created_by : Nat)
    (temp_password : String) (hash : String → String) (newUserId : Nat) :
    DB × Except HErr (UserRow × String) :=
  match get_role_id db data.role with
  | .error e => (db, .error e)
  | .ok rid =>
    let user : UserRow :=
      { id := newUserId, username := data.email,
        password_hash := hash temp_password, role_id := rid,
        status := data.statusFlag, is_temp_password := true,
        created_by := created_by }
    if db.users.any (fun u => u.username == data.email) then
      (db, .error (.valueError dupEmailMsg))
    else
      let db1 := { db with users := db.users ++ [user] }
      if db1.details.any (fun d => d.email == data.email) then
        (db1, .error (.valueError dupEmailMsg))
      else
        let detail : UserDetailRow :=
          { user_id := newUserId, email := data.email,
            full_name := data.full_name, status := true }
        ({ db1 with details := db1.details ++ [detail] }, .ok (user, temp_password))

/-- `create_initial_admin_if_needed` (service/user_service.py lines 221-281).
If a user with role_id 1 exists it is returned unchanged; otherwise an admin
user and detail are created from the ADMIN_EMAIL / ADMIN_FULL_NAME
environment values (`none` models an unset variable). -/
def create_initial_admin_if_needed (db : DB)
    (adminEmail adminFullName : Option String)
    (adminTempPw : String) (hash : String → String) (adminNewId : Nat) :
    DB × Except HErr UserRow :=
  match db.users.find? (fun u => u.role_id == 1) with
  | some u => (db, .ok u)
  | none =>
    match adminEmail, adminFullName with
    | some em, some fn =>
      let user : UserRow :=
        { id := adminNewId, username := em, password_hash := hash adminTempPw,
          role_id := 1, status := true, is_temp_password := true,
          created_by := 0 }
      let db1 := { db with users := db.users ++ [user] }
      let detail : UserDetailRow :=
        { user_id := adminNewId, email := em, full_name := fn, status := true }
      ({ db1 with details := db1.details ++ [detail] }, .ok user)
    | _, _ =>
      (db, .error (.valueError
        "ADMIN_EMAIL and ADMIN_FULL_NAME must be set in environment variables"))

/-- The `/admin/add-user` route (routes/user_routes.py lines 23-52): ensures
the initial admin, then calls `create_user`, translating any ValueError to
an HTTPException with status 400.  The welcome email is a background task
and does not affect the result. -/
def add_user (db : DB) (data : AddUser)
    (adminEmail adminFullName : Option String)
    (adminTempPw temp_password : String) (hash : String → String)
    (adminNewId newUserId : Nat) : DB × Except HErr String :=
  match create_initial_admin_if_needed db adminEmail adminFullName adminTempPw hash adminNewId with
  | (db1, .error e) => (db1, .error e)
  | (db1, .ok admin) =>
    match create_user db1 data admin.id temp_password hash newUserId with
    | (db2, .error (.valueError m)) => (db2, .error (.http 400 m))
    | (db2, .error e) => (db2, .error e)
    | (db2, .ok (u, _)) =>
      (db2, .ok ("User " ++ u.username ++ " created. Email will be sent shortly."))

/-- `email_exists_for_other_user` (service/user_service.py lines 213-217):
true when some other user already has the email as username. -/
def email_exists_for_other_user (db : DB) (email : String) (exclude_user_id : Nat) : Bool :=
  db.users.any (fun u => u.username == email && u.id != exclude_user_id)

/-- `update_user` (service/user_service.py lines 366-450).  Mutations stay
pending until the single commit, which installs all of them atomically or,
on a unique-constraint violation of `user_detail.email`, rolls every one of
them back and raises the duplicate-email ValueError.  A ValueError raised
before the commit (duplicate email among usernames, unknown role) likewise
leaves the committed state untouched.  Sessions of the user are ended iff
the email changed or the submitted status is false; a fresh temporary
password is installed iff the email changed or `reset_temp_password`. -/
def update_user (db : DB) (user_id : Nat) (data : AddUser)
    (reset_temp_password : Bool) (temp_password : String)
    (hash : String → String) (now : Int) :
    DB × Except HErr (Option (UserListItem × Option String)) :=
  match db.users.find? (fun u => u.id == user_id),
        db.details.find? (fun d => d.user_id == user_id) with
  | some user, some _detail =>
    if email_exists_for_other_user db data.email user_id then
      (db, .error (.valueError dupEmailMsg))
    else
      match db.roles.find? (fun r => r.name == data.role) with
      | none => (db, .error (.valueError ("Role " ++ data.role ++ " not found")))
      | some role =>
        let email_changed := user.username != data.email
        let newPw := email_changed || reset_temp_password
        let user' : UserRow :=
          { user with
            username := data.email
            status := data.statusFlag
            role_id := role.id
            password_hash := if newPw then hash temp_password else user.password_hash
            is_temp_password := if newPw then true else user.is_temp_password }
        let endSessions := email_changed || !data.statusFlag
        let sessions' :=
          if endSessions then
            db.sessions.map (fun s =>
              if s.user_id == user.id && s.end_time == none then
                { s with end_time := some now } else s)
          else db.sessions
        if db.details.any (fun d => d.email == data.email && d.user_id != user_id) then
          (db, .error (.valueError dupEmailMsg))
        else
          ({ db with
              users := db.users.map (fun u => if u.id == user_id then user' else u)
              details := db.details.map (fun d =>
                if d.user_id == user_id then
                  { d with
                    full_name := data.full_name
                    email := data.email
                    status := data.statusFlag }
                else d)
              sessions := sessions' },
           .ok (some ({ id := user.id
                        full_name := data.full_name
                        email := data.email
                        role := role.name
                        status := data.statusFlag
                        is_temp_password := user'.is_temp_password },
                      if newPw then some temp_password else none)))
  | _, _ => (db, .ok none)

/-- The `/reset-password` route of routes/auth_routes.py (lines 199-246).
On an expired token the token row is deleted and committed before the 400 is
raised.  On success the password hash is replaced, the temp-password flag
cleared, every active session of the user is ended at `now`, and the token
row is deleted, all in one commit. -/
def auth_reset_password (db : DB) (token newPassword : String) (now : Int)
    (hash : String → String) : DB × Except HErr String :=
  match db.resetTokens.find? (fun r => r.token == token) with
  | none => (db, .error (.http 400 "Invalid reset token"))
  | some rec =>
    if rec.expiration < now then
      ({ db with resetTokens := db.resetTokens.filter (fun r => r.id != rec.id) },
       .error (.http 400 "Reset token has expired"))
    else
      match db.users.find? (fun u => u.id == rec.user_id) with
      | none => (db, .error (.http 404 "User not found"))
      | some user =>
        ({ db with
            users := db.users.map (fun u =>
              if u.id == rec.user_id then
                { u with password_hash := hash newPassword, is_temp_password := false }
              else u)
            sessions := db.sessions.map (fun s =>
              if s.user_id == user.id && s.end_time == none then
                { s with end_time := some now }
              else s)
            resetTokens := db.resetTokens.filter (fun r => r.id != rec.id) },
         .ok "Password successfully reset")

/-- The `/reset-password` route of routes/user_routes.py (lines 222-258), the
router that app.py mounts.  Unlike the auth_routes variant it performs no
session invalidation and no user-existence check (`db.get` returning None
would crash with an AttributeError, surfacing as a 500). -/
def user_reset_password (db : DB) (token newPassword : String) (now : Int)
    (hash : String → String) : DB × Except HErr String :=
  match db.resetTokens.find? (fun r => r.token == token) with
  | none => (db, .error (.http 400 "Invalid reset token"))
  | some rec =>
    if rec.expiration < now then
      ({ db with resetTokens := db.resetTokens.filter (fun r => r.id != rec.id) },
       .error (.http 400 "Reset token has expired"))
    else
      match db.users.find? (fun u => u.id == rec.user_id) with
      | none => (db, .error (.http 500 "AttributeError"))
      | some _user =>
        ({ db with
            users := db.users.map (fun u =>
              if u.id == rec.user_id then
                { u with password_hash := hash newPassword, is_temp_password := false }
              else u)
            resetTokens := db.resetTokens.filter (fun r => r.id != rec.id) },
         .ok "Password successfully reset")

/-- The `/upload-pdf` route (routes/file_upload_route.py lines 24-93), with
the two collaborators as parameters: `s3Result` is the outcome of
`upload_file_to_s3` (error = exception message) and `aiStatus` the HTTP
status of the AI-backend callback (`none` = connection/timeout failure).
The only validation is the filename-extension check at line 28; the declared
content type is forwarded to storage but never inspected. -/
def upload_pdf (filename contentType : String)
    (s3Result : Except String String) (aiStatus : Option Nat) :
    Except HErr String :=
  if !(endswith filename ".pdf") then
    .error (.http 400 "Invalid file format. Only PDF allowed.")
  else
    match s3Result with
    | .error e => .error (.http 500 ("File upload failed: " ++ e))
    | .ok _url =>
      match aiStatus with
      | none => .error (.http 500 "Failed to connect to AI backend")
      | some code =>
        if code != 200 then
          .error (.http 500 "AI backend failed")
        else
          .ok "Successfully uploaded to PostgreSQL and sent to AI backend"

/-- `compute_avg_duration` (service/dashboard_service.py lines 23-26) on the
closed sessions of a month: each session is its (start_time, end_time) pair
in seconds, the duration its difference.  An empty list averages to 0. -/
def compute_avg_duration (sessions : List (Int × Int)) : ℚ :=
  if sessions = [] then 0
  else (sessions.map (fun s => ((s.2 - s.1 : Int) : ℚ))).sum / sessions.length

/-- Rounding to 2 decimal places, modelling the round(x, 2) of the response. -/
def round2 (q : ℚ) : ℚ := (round (q * 100) : ℚ) / 100

/-- The percentage-change computation of `/average-session-length`
(routes/dashboard_routes.py lines 52-72): guards the division by zero on a
zero previous average, else the relative change in percent; the response
field carries it rounded to 2 decimals. -/
def percentage_change_vs_last_month (cur prev : List (Int × Int)) : ℚ :=
  let current_avg := compute_avg_duration cur
  let previous_avg := compute_avg_duration prev
  let change :=
    if previous_avg = 0 then (if current_avg > 0 then 100 else 0)
    else ((current_avg - previous_avg) / previous_avg) * 100
  round2 change

/-! Concrete fixtures used by the witnesses and counterexamples. -/

/-- A stand-in for the pbkdf2 KDF: witnesses only need it to be a function. -/
def testHash (p : String) : String := "h_" ++ p

/-- A stand-in verifier matching `testHash` hashes. -/
def testVerify (p hashed : String) : Bool := ("h_" ++ p) == hashed

def adminRole : RoleRow := { id := 1, name := "admin" }

def userRole : RoleRow := { id := 3, name := "user" }

def adminUser : UserRow :=
  { id := 1, username := "admin@x", password_hash := "h_a", role_id := 1,
    status := true, is_temp_password := false, created_by := 0 }

def aliceUser : UserRow :=
  { id := 2, username := "alice@x", password_hash := "h_p", role_id := 3,
    status := true, is_temp_password := false, created_by := 1 }

def bobUser : UserRow :=
  { id := 3, username := "bob@x", password_hash := "h_q", role_id := 3,
    status := false, is_temp_password := false, created_by := 1 }

def adminDetail : UserDetailRow :=
  { user_id := 1, email := "admin@x", full_name := "Admin", status := true }

def aliceDetail : UserDetailRow :=
  { user_id := 2, email := "alice@x", full_name := "Alice", status := true }

def bobDetail : UserDetailRow :=
  { user_id := 3, email := "bob@x", full_name := "Bob", status := false }

/-- An active session of alice, started at time 100. -/
def aliceSession : SessionRow :=
  { session_id := 1, user_id := 2, session_uuid := "sid-1",
    start_time := 100, end_time := none }

/-- A reset token of alice expiring at time 1000. -/
def aliceToken : ResetTokenRow :=
  { id := 1, user_id := 2, token := "tok-1", expiration := 1000 }

/-- The base fixture database. -/
def db0 : DB :=
  { roles := [adminRole, userRole]
    users := [adminUser, aliceUser, bobUser]
    details := [adminDetail, aliceDetail, bobDetail]
    sessions := [aliceSession]
    resetTokens := [aliceToken] }

/-- A second add-user request reusing the email of the fixture user alice. -/
def aliceDup : AddUser :=
  { email := "alice@x", full_name := "Alice Two", role := "user", statusFlag := true }

/-- An update of alice keeping her email, name, role and active status. -/
def aliceSameEmail : AddUser :=
  { email := "alice@x", full_name := "Alice", role := "user", statusFlag := true }

/-- An update moving alice to a fresh email. -/
def aliceNewEmail : AddUser :=
  { email := "alice2@x", full_name := "Alice", role := "user", statusFlag := true }

/-- An update of alice to the email the admin already uses. -/
def aliceToAdminEmail : AddUser :=
  { email := "admin@x", full_name := "Alice", role := "user", statusFlag := true }

/-! The claims. -/

/-- C5: each run of the cleanup job sets, for every session row with
end_time null and start_time older than the configured timeout,
end_time = start_time + timeout (not the sweep time), leaves every other
session row and every other table unchanged, independent of user activity. -/
theorem c5_cleanup_closes_stale_sessions (db : DB) (now tmin : Int) :
    (cleanup_expired_sessions db now tmin).roles = db.roles ∧
    (cleanup_expired_sessions db now tmin).users = db.users ∧
    (cleanup_expired_sessions db now tmin).details = db.details ∧
    (cleanup_expired_sessions db now tmin).resetTokens = db.resetTokens ∧
    (cleanup_expired_sessions db now tmin).sessions.length = db.sessions.length ∧
    ∀ i : Nat, (cleanup_expired_sessions db now tmin).sessions[i]? =
      (db.sessions[i]?).map (fun s =>
        if s.end_time = none ∧ s.start_time < now - tmin * 60 then
          { s with end_time := some (s.start_time + tmin * 60) }
        else s) := by
  refine ⟨rfl, rfl, rfl, rfl, by simp [cleanup_expired_sessions], ?_⟩
  intro i
  simp only [cleanup_expired_sessions, List.getElem?_map]
  cases h : db.sessions[i]? with
  | none => rfl
  | some s =>
    simp only [Option.map_some']
    by_cases h1 : s.end_time = none <;> by_cases h2 : s.start_time < now - tmin * 60 <;>
      simp [h1, h2, decide_eq_true_eq]

/-- C8 counterexample: a request whose filename ends in .pdf but whose
declared content type is text/plain — not a PDF content type — is accepted
and fully processed, refuting the claim that acceptance requires validation
of both the extension and the declared content type. -/
theorem c8_counterexample :
    upload_pdf "doc.pdf" "text/plain" (.ok "https://bucket/doc.pdf") (some 200) =
      .ok "Successfully uploaded to PostgreSQL and sent to AI backend" := by
  decide

/-- C8 (amended): the upload is validated by the filename extension alone —
the declared content type never influences the result — and a request whose
filename does not end in .pdf is rejected with HTTP 400 with a result
independent of the storage and callback outcomes, i.e. before anything is
stored. -/
theorem c8_extension_only_validation (filename ct1 ct2 : String)
    (s3 s3' : Except String String) (ai ai' : Option Nat) :
    upload_pdf filename ct1 s3 ai = upload_pdf filename ct2 s3 ai ∧
    (endswith filename ".pdf" = false →
      upload_pdf filename ct1 s3 ai =
        .error (.http 400 "Invalid file format. Only PDF allowed.") ∧
      upload_pdf filename ct1 s3 ai = upload_pdf filename ct1 s3' ai') := by
  constructor
  · rfl
  · intro h
    simp [upload_pdf, h]

/-- C8 witness for the amended theorem at a concrete non-pdf filename. -/
theorem c8_witness :
    (endswith "doc.txt" ".pdf" = false) ∧
    upload_pdf "doc.txt" "application/pdf" (.ok "u") (some 200) =
      .error (.http 400 "Invalid file format. Only PDF allowed.") :=
  ⟨by decide,
   (c8_extension_only_validation "doc.txt" "application/pdf" "application/pdf"
      (.ok "u") (.ok "u") (some 200) (some 200)).2 (by decide) |>.1⟩

/-- C9: login of a user whose status flag is false answers HTTP 403 with the
inactive-account detail for every supplied password — identical responses
for any two passwords, the inactive check preceding password verification —
while a wrong password for an active user answers HTTP 401. -/
theorem c9_inactive_login_uniform (db : DB) (verify : String → String → Bool)
    (username p1 p2 newUuid : String) (newSid : Nat) (now : Int)
    (u : UserRow) (r : RoleRow)
    (hu : db.users.find? (fun x => x.username == username) = some u)
    (hr : db.roles.find? (fun x => x.id == u.role_id) = some r) :
    (u.status = false →
      login db verify username p1 newUuid newSid now =
        (db, .error (.http 403 "Account is inactive. Contact administrator.")) ∧
      login db verify username p1 newUuid newSid now =
        login db verify username p2 newUuid newSid now) ∧
    (u.status = true → verify p1 u.password_hash = false →
      login db verify username p1 newUuid newSid now =
        (db, .error (.http 401 "Invalid credentials"))) := by
  constructor
  · intro hst
    constructor
    · simp [login, login_user, hu, hr, hst]
    · simp [login, login_user, hu, hr, hst]
  · intro hst hpw
    simp [login, login_user, hu, hr, hst, hpw]

/-- C9 witness: the inactive fixture user bob gets the 403 for two different
passwords (one of them his correct password), and alice with a wrong
password gets the 401. -/
theorem c9_witness :
    (login db0 testVerify "bob@x" "q" "s" 9 50 =
       (db0, .error (.http 403 "Account is inactive. Contact administrator.")) ∧
     login db0 testVerify "bob@x" "q" "s" 9 50 =
       login db0 testVerify "bob@x" "wrong" "s" 9 50) ∧
    login db0 testVerify "alice@x" "wrong" "s" 9 50 =
      (db0, .error (.http 401 "Invalid credentials")) := by
  have h1 := c9_inactive_login_uniform db0 testVerify "bob@x" "q" "wrong" "s" 9 50
    bobUser userRole (by decide) (by decide)
  have h2 := c9_inactive_login_uniform db0 testVerify "alice@x" "wrong" "wrong" "s" 9 50
    aliceUser userRole (by decide) (by decide)
  exact ⟨h1.1 (by decide), h2.2 (by decide) (by decide)⟩

/-- C10: the average duration of an empty session set is 0; a zero previous
average reports exactly 100 when the current average is positive and 0
otherwise, with no division by zero; otherwise the report is
((current - previous) / previous) * 100 rounded to 2 decimals. -/
theorem c10_average_session_change (cur prev : List (Int × Int)) :
    compute_avg_duration ([] : List (Int × Int)) = 0 ∧
    (compute_avg_duration prev = 0 →
      percentage_change_vs_last_month cur prev =
        (if 0 < compute_avg_duration cur then 100 else 0)) ∧
    (compute_avg_duration prev ≠ 0 →
      percentage_change_vs_last_month cur prev =
        round2 (((compute_avg_duration cur - compute_avg_duration prev) /
                 compute_avg_duration prev) * 100)) := by
  refine ⟨by simp [compute_avg_duration], ?_, ?_⟩
  · intro h
    simp only [percentage_change_vs_last_month]
    rw [if_pos h]
    by_cases hc : 0 < compute_avg_duration cur
    · rw [if_pos hc]
      unfold round2; norm_num
    · rw [if_neg hc]
      unfold round2; norm_num
  · intro h
    simp only [percentage_change_vs_last_month]
    rw [if_neg h]

/-- C10 witness: one minute-long current session against an empty previous
month reports 100; against a 50-second previous average it reports the
rounded relative change. -/
theorem c10_witness :
    percentage_change_vs_last_month [(0, 60)] [] =
      (if 0 < compute_avg_duration [(0, 60)] then 100 else 0) ∧
    percentage_change_vs_last_month [(0, 60)] [(0, 50)] =
      round2 (((compute_avg_duration [(0, 60)] - compute_avg_duration [(0, 50)]) /
               compute_avg_duration [(0, 50)]) * 100) :=
  ⟨(c10_average_session_change [(0, 60)] []).2.1 (by norm_num [compute_avg_duration]),
   (c10_average_session_change [(0, 60)] [(0, 50)]).2.2
     (by norm_num [compute_avg_duration])⟩

/-- C2: a session-validation request whose matching session row is active
(end_time null) but older than the 5-day timeout fails with HTTP 401
"Session expired", and as a side effect the end_time of that session row is set
to now in the committed state returned with the error; every other table and
every other session row is unchanged. -/
theorem c2_session_expiry_marks_end_time (db : DB) (token : String) (now : Int)
    (sess : SessionRow)
    (hfind : db.sessions.find?
      (fun s => s.session_uuid == token && s.end_time == none) = some sess)
    (hexp : now - sess.start_time > fiveDaysSeconds) :
    (get_current_user db (some token) now).2 =
      .error (.http 401 "Session expired") ∧
    (get_current_user db (some token) now).1.users = db.users ∧
    (get_current_user db (some token) now).1.roles = db.roles ∧
    (get_current_user db (some token) now).1.details = db.details ∧
    (get_current_user db (some token) now).1.resetTokens = db.resetTokens ∧
    ∀ i : Nat, (get_current_user db (some token) now).1.sessions[i]? =
      (db.sessions[i]?).map (fun s =>
        if s.session_id = sess.session_id then { s with end_time := some now }
        else s) := by
  simp only [get_current_user, hfind]
  rw [if_pos hexp]
  refine ⟨rfl, rfl, rfl, rfl, rfl, ?_⟩
  intro i
  simp only [List.getElem?_map]
  cases db.sessions[i]? with
  | none => rfl
  | some s =>
    simp only [Option.map_some']
    by_cases h : s.session_id = sess.session_id <;> simp [h]

/-- C2 witness: the fixture session started at 100 validated at 500000
(more than 5 days = 432000 seconds later) answers the 401 and is returned
marked ended at 500000. -/
theorem c2_witness :
    (get_current_user db0 (some "sid-1") 500000).2 =
      .error (.http 401 "Session expired") ∧
    (get_current_user db0 (some "sid-1") 500000).1.sessions[0]? =
      some { aliceSession with end_time := some 500000 } := by
  have h := c2_session_expiry_marks_end_time db0 "sid-1" 500000 aliceSession
    (by decide) (by decide)
  refine ⟨h.1, ?_⟩
  rw [h.2.2.2.2.2 0]
  decide

/-- C6: a reset-password request whose token row has expiration earlier than
now fails with HTTP 400 "Reset token has expired"; the token row is deleted
in the committed state returned with the error while users, sessions and the
remaining token rows are unchanged. -/
theorem c6_expired_token_deleted (db : DB) (token npw : String) (now : Int)
    (hash : String → String) (rec : ResetTokenRow)
    (hfind : db.resetTokens.find? (fun r => r.token == token) = some rec)
    (hexp : rec.expiration < now) :
    (auth_reset_password db token npw now hash).2 =
      .error (.http 400 "Reset token has expired") ∧
    (auth_reset_password db token npw now hash).1.users = db.users ∧
    (auth_reset_password db token npw now hash).1.sessions = db.sessions ∧
    (auth_reset_password db token npw now hash).1.details = db.details ∧
    (auth_reset_password db token npw now hash).1.roles = db.roles ∧
    (∀ r ∈ (auth_reset_password db token npw now hash).1.resetTokens,
        r.id ≠ rec.id ∧ r ∈ db.resetTokens) ∧
    (∀ r ∈ db.resetTokens, r.id ≠ rec.id →
        r ∈ (auth_reset_password db token npw now hash).1.resetTokens) := by
  simp only [auth_reset_password, hfind]
  rw [if_pos hexp]
  refine ⟨rfl, rfl, rfl, rfl, rfl, ?_, ?_⟩
  · intro r hr
    rw [List.mem_filter] at hr
    exact ⟨by simpa using hr.2, hr.1⟩
  · intro r hr hne
    rw [List.mem_filter]
    exact ⟨hr, by simpa using hne⟩

/-- C6 witness: the fixture token expiring at 1000, presented at 2000, is
rejected with the 400 and deleted while sessions stay as they were. -/
theorem c6_witness :
    (auth_reset_password db0 "tok-1" "npw" 2000 testHash).2 =
      .error (.http 400 "Reset token has expired") ∧
    (auth_reset_password db0 "tok-1" "npw" 2000 testHash).1.users = db0.users ∧
    (auth_reset_password db0 "tok-1" "npw" 2000 testHash).1.sessions = db0.sessions := by
  have h := c6_expired_token_deleted db0 "tok-1" "npw" 2000 testHash aliceToken
    (by decide) (by decide)
  exact ⟨h.1, h.2.1, h.2.2.1⟩

/-- C3 counterexample: on the reset-password handler of routes/user_routes.py
— the router app.py mounts — a valid, non-expired token resets the password
successfully, yet the active session row of the token owner keeps
end_time null, refuting the claim that every such request sets end_time on
all active sessions of the user. -/
theorem c3_counterexample :
    (user_reset_password db0 "tok-1" "npw" 500 testHash).2 =
      .ok "Password successfully reset" ∧
    (user_reset_password db0 "tok-1" "npw" 500 testHash).1.sessions =
      [aliceSession] ∧
    aliceSession.user_id = aliceToken.user_id ∧
    aliceSession.end_time = none := by
  decide

/-- C3 (amended): a matching, non-expired token updates the password hash,
clears the temp-password flag and deletes the token row in both handlers,
but only the auth_routes handler additionally ends the active
sessions; the user_routes handler, the one the application mounts, leaves
the session table unchanged. -/
theorem c3_reset_password_effects (db : DB) (token npw : String) (now : Int)
    (hash : String → String) (rec : ResetTokenRow) (user : UserRow)
    (hfind : db.resetTokens.find? (fun r => r.token == token) = some rec)
    (hexp : ¬ rec.expiration < now)
    (huser : db.users.find? (fun u => u.id == rec.user_id) = some user) :
    (auth_reset_password db token npw now hash).2 =
      .ok "Password successfully reset" ∧
    (∀ i : Nat, (auth_reset_password db token npw now hash).1.users[i]? =
      (db.users[i]?).map (fun u =>
        if u.id = rec.user_id then
          { u with password_hash := hash npw, is_temp_password := false }
        else u)) ∧
    (∀ i : Nat, (auth_reset_password db token npw now hash).1.sessions[i]? =
      (db.sessions[i]?).map (fun s =>
        if s.user_id = user.id ∧ s.end_time = none then
          { s with end_time := some now }
        else s)) ∧
    (∀ r ∈ (auth_reset_password db token npw now hash).1.resetTokens,
        r.id ≠ rec.id) ∧
    (user_reset_password db token npw now hash).2 =
      .ok "Password successfully reset" ∧
    (∀ i : Nat, (user_reset_password db token npw now hash).1.users[i]? =
      (db.users[i]?).map (fun u =>
        if u.id = rec.user_id then
          { u with password_hash := hash npw, is_temp_password := false }
        else u)) ∧
    (user_reset_password db token npw now hash).1.sessions = db.sessions ∧
    (∀ r ∈ (user_reset_password db token npw now hash).1.resetTokens,
        r.id ≠ rec.id) := by
  simp only [auth_reset_password, user_reset_password, hfind]
  rw [if_neg hexp, if_neg hexp]
  simp only [huser]
  refine ⟨by trivial, ?_, ?_, ?_, by trivial, ?_, by trivial, ?_⟩
  · intro i
    simp only [List.getElem?_map]
    cases db.users[i]? with
    | none => rfl
    | some u =>
      simp only [Option.map_some']
      by_cases h : u.id = rec.user_id <;> simp [h]
  · intro i
    simp only [List.getElem?_map]
    cases db.sessions[i]? with
    | none => rfl
    | some s =>
      simp only [Option.map_some']
      by_cases h1 : s.user_id = user.id <;> by_cases h2 : s.end_time = none <;>
        simp [h1, h2]
  · intro r hr
    rw [List.mem_filter] at hr
    simpa using hr.2
  · intro i
    simp only [List.getElem?_map]
    cases db.users[i]? with
    | none => rfl
    | some u =>
      simp only [Option.map_some']
      by_cases h : u.id = rec.user_id <;> simp [h]
  · intro r hr
    rw [List.mem_filter] at hr
    simpa using hr.2

/-- C3 witness: at the fixture token presented before expiry, the auth
handler ends the active session of the user while the mounted user_routes
handler leaves the session table as it was. -/
theorem c3_witness :
    (auth_reset_password db0 "tok-1" "npw" 500 testHash).1.sessions[0]? =
      some { aliceSession with end_time := some 500 } ∧
    (user_reset_password db0 "tok-1" "npw" 500 testHash).1.sessions =
      db0.sessions := by
  have h := c3_reset_password_effects db0 "tok-1" "npw" 500 testHash
    aliceToken aliceUser (by decide) (by decide) (by decide)
  refine ⟨?_, h.2.2.2.2.2.2.1⟩
  rw [h.2.2.1 0]
  decide

/-- C1 counterexample: creating a second user with an email already used
fails, but with HTTP status 400, not the claimed Conflict 409; the database
— and with it the User and UserDetail rows of the first user — is unchanged. -/
theorem c1_counterexample :
    add_user db0 aliceDup (some "admin@x") (some "Admin") "atp" "tp"
      testHash 9 10 = (db0, .error (.http 400 dupEmailMsg)) ∧
    HErr.http 400 dupEmailMsg ≠ HErr.http 409 dupEmailMsg := by
  decide

/-- C1 (amended): with the initial admin present and the requested role
known, a create-user request whose email is already the username of some user
fails with HTTP 400 carrying the duplicate-email message — the
unique-constraint violation caught at commit is translated by the route to
400 BadRequest, not 409 — and the committed state, including the first
User and UserDetail rows of the first user, is exactly unchanged. -/
theorem c1_duplicate_email_bad_request (db : DB) (data : AddUser)
    (ae af : Option String) (atp tp : String) (hash : String → String)
    (aid nid : Nat)
    (hadmin : (db.users.find? (fun u => u.role_id == 1)).isSome)
    (hrole : (db.roles.find? (fun r => r.name == data.role)).isSome)
    (hdup : db.users.any (fun u => u.username == data.email) = true) :
    add_user db data ae af atp tp hash aid nid =
      (db, .error (.http 400 dupEmailMsg)) := by
  obtain ⟨admin, hadmin⟩ := Option.isSome_iff_exists.mp hadmin
  obtain ⟨r, hr⟩ := Option.isSome_iff_exists.mp hrole
  simp only [add_user, create_initial_admin_if_needed, hadmin, create_user,
    get_role_id, hr]
  rw [if_pos hdup]

/-- C1 witness for the amended theorem at the fixture database. -/
theorem c1_witness :
    add_user db0 aliceDup (some "e@x") (some "E") "atp" "tp" testHash 9 10 =
      (db0, .error (.http 400 dupEmailMsg)) :=
  c1_duplicate_email_bad_request db0 aliceDup (some "e@x") (some "E") "atp" "tp"
    testHash 9 10 (by decide) (by decide) (by decide)

/-- C7: an admin update of user A to an email already used as the username
of a different user B fails with the duplicate-email Conflict error raised
by the pre-commit uniqueness check, and the committed state — the User and
UserDetail rows of both A and B — is exactly unchanged. -/
theorem c7_update_email_conflict (db : DB) (user_id : Nat) (data : AddUser)
    (rtp : Bool) (tp : String) (hash : String → String) (now : Int)
    (hu : (db.users.find? (fun u => u.id == user_id)).isSome)
    (hd : (db.details.find? (fun d => d.user_id == user_id)).isSome)
    (hconf : email_exists_for_other_user db data.email user_id = true) :
    update_user db user_id data rtp tp hash now =
      (db, .error (.valueError dupEmailMsg)) := by
  obtain ⟨u, hu⟩ := Option.isSome_iff_exists.mp hu
  obtain ⟨d, hd⟩ := Option.isSome_iff_exists.mp hd
  simp only [update_user, hu, hd]
  rw [if_pos hconf]

/-- C7 witness: updating alice to the email the admin uses fails with the
duplicate-email error and leaves the fixture database untouched. -/
theorem c7_witness :
    update_user db0 2 aliceToAdminEmail false "tp" testHash 999 =
      (db0, .error (.valueError dupEmailMsg)) :=
  c7_update_email_conflict db0 2 aliceToAdminEmail false "tp" testHash 999
    (by decide) (by decide) (by decide)

/-- C4 counterexample: an update of alice with the explicit reset flag set,
her email unchanged and status still true issues a fresh temporary password
(is_temp_password true, the password returned) yet leaves her active
session with end_time null, refuting the claim that the reset flag alone
ends all active sessions. -/
theorem c4_counterexample :
    (update_user db0 2 aliceSameEmail true "tp" testHash 999).1.sessions =
      [aliceSession] ∧
    aliceSession.end_time = none ∧ aliceSession.user_id = 2 ∧
    (update_user db0 2 aliceSameEmail true "tp" testHash 999).2 =
      .ok (some ({ id := 2, full_name := "Alice", email := "alice@x",
                   role := "user", status := true, is_temp_password := true },
                 some "tp")) := by
  decide

/-- C4 (amended): on a conflict-free admin update of an existing user, a new
temporary password is issued (hash replaced, flag set, password returned)
iff the email changed or the explicit reset flag is set, while the
active sessions are ended iff the email changed or the submitted status is
false — the reset flag alone leaves sessions untouched. -/
theorem c4_update_user_effects (db : DB) (user_id : Nat) (data : AddUser)
    (rtp : Bool) (tp : String) (hash : String → String) (now : Int)
    (user : UserRow) (role : RoleRow)
    (hu : db.users.find? (fun u => u.id == user_id) = some user)
    (hd : (db.details.find? (fun d => d.user_id == user_id)).isSome)
    (hconf : email_exists_for_other_user db data.email user_id = false)
    (hrole : db.roles.find? (fun r => r.name == data.role) = some role)
    (hdconf : db.details.any
      (fun d => d.email == data.email && d.user_id != user_id) = false) :
    (update_user db user_id data rtp tp hash now).1.sessions =
      (if user.username ≠ data.email ∨ data.statusFlag = false then
        db.sessions.map (fun s =>
          if s.user_id = user.id ∧ s.end_time = none then
            { s with end_time := some now }
          else s)
      else db.sessions) ∧
    (update_user db user_id data rtp tp hash now).2 =
      .ok (some ({ id := user.id, full_name := data.full_name,
                   email := data.email, role := role.name,
                   status := data.statusFlag,
                   is_temp_password :=
                     if user.username ≠ data.email ∨ rtp = true then true
                     else user.is_temp_password },
                 if user.username ≠ data.email ∨ rtp = true then some tp
                 else none)) ∧
    (∀ i : Nat, (update_user db user_id data rtp tp hash now).1.users[i]? =
      (db.users[i]?).map (fun u =>
        if u.id = user_id then
          { user with
            username := data.email
            status := data.statusFlag
            role_id := role.id
            password_hash :=
              if user.username ≠ data.email ∨ rtp = true then hash tp
              else user.password_hash
            is_temp_password :=
              if user.username ≠ data.email ∨ rtp = true then true
              else user.is_temp_password }
        else u)) := by
  obtain ⟨d, hdd⟩ := Option.isSome_iff_exists.mp hd
  have hconfP : ¬ (email_exists_for_other_user db data.email user_id = true) := by
    simp [hconf]
  have hdconfP : ¬ (db.details.any
      (fun d => d.email == data.email && d.user_id != user_id) = true) := by
    simp [hdconf]
  simp only [update_user, hu, hdd]
  rw [if_neg hconfP]
  simp only [hrole]
  rw [if_neg hdconfP]
  have hiffS : ((user.username != data.email) || !data.statusFlag) = true ↔
      (user.username ≠ data.email ∨ data.statusFlag = false) := by
    simp
  have hiffP : ((user.username != data.email) || rtp) = true ↔
      (user.username ≠ data.email ∨ rtp = true) := by
    simp
  refine ⟨?_, ?_, ?_⟩
  · by_cases hP : user.username ≠ data.email ∨ data.statusFlag = false
    · simp only [if_pos (hiffS.mpr hP), if_pos hP]
      apply List.map_congr_left
      intro s _
      by_cases h1 : s.user_id = user.id <;> by_cases h2 : s.end_time = none <;>
        simp [h1, h2]
    · simp only [if_neg (fun hb => hP (hiffS.mp hb)), if_neg hP]
  · by_cases hP : user.username ≠ data.email ∨ rtp = true
    · simp only [if_pos (hiffP.mpr hP), if_pos hP]
    · simp only [if_neg (fun hb => hP (hiffP.mp hb)), if_neg hP]
  · intro i
    simp only [List.getElem?_map]
    cases db.users[i]? with
    | none => rfl
    | some u =>
      simp only [Option.map_some']
      by_cases h : u.id = user_id
      · have hb : (u.id == user_id) = true := by simp [h]
        simp only [if_pos hb, if_pos h]
        by_cases hP : user.username ≠ data.email ∨ rtp = true
        · simp only [if_pos (hiffP.mpr hP), if_pos hP]
        · simp only [if_neg (fun hb2 => hP (hiffP.mp hb2)), if_neg hP]
      · have hb : ¬ ((u.id == user_id) = true) := by simp [h]
        simp only [if_neg hb, if_neg h]

/-- C4 witness: an email change ends the active session and issues a
temporary password, while the reset flag alone (email unchanged, status
true) leaves the session table untouched. -/
theorem c4_witness :
    (update_user db0 2 aliceNewEmail false "tp" testHash 999).1.sessions =
      [{ aliceSession with end_time := some 999 }] ∧
    (update_user db0 2 aliceSameEmail true "tp" testHash 999).1.sessions =
      [aliceSession] := by
  have h1 := c4_update_user_effects db0 2 aliceNewEmail false "tp" testHash 999
    aliceUser userRole (by decide) (by decide) (by decide) (by decide) (by decide)
  have h2 := c4_update_user_effects db0 2 aliceSameEmail true "tp" testHash 999
    aliceUser userRole (by decide) (by decide) (by decide) (by decide) (by decide)
  constructor
  · rw [h1.1]
    decide
  · rw [h2.1]
    decide

end Polit
